import Mathlib

/-
Verification development for the connect-mongodb-session session store.

The definitions below are a shallow embedding of `index.js` (the current,
promise-based implementation; `OptionsType`, `MongoDBStore`, `_generateQuery`,
`get`, `set`, `destroy`, `clear`, `handleError`) and, for the pre-ready
operation buffering, of the earlier event-emitter variant that implements it
(`get`/`set`/`destroy`/`clear` guarded by `if (!this.db)` registering a
`once('connected')` listener).  Timestamps are modelled as `Nat` (milliseconds
since the epoch), the collection as a list of documents in insertion order,
and the MongoDB client's primitives (`findOne`, `updateOne` with upsert,
`deleteOne`) as first-match list operations.
-/

namespace ConnectMongoDBSession

/-! ## Options resolution (`OptionsType` in index.js) -/

/-- User-supplied options before resolution: every recognized field may be
absent, mirroring the archetype schema where each `$default` fills an
unspecified field.  `connectionOptions` is an opaque bag, modelled as a list
of key/value pairs; `none` stands for JavaScript `null`/absent. -/
structure RawOptions where
  uri : Option String
  collection : Option String
  connectionOptions : Option (List (String × String))
  expires : Option Nat
  idField : Option String
  databaseName : Option String
  expiresKey : Option String
  expiresAfterSeconds : Option Nat
deriving DecidableEq

/-- Raw options with every field unspecified: `new MongoDBStore()` or
`new MongoDBStore({})`. -/
def emptyRawOptions : RawOptions :=
  { uri := none, collection := none, connectionOptions := none,
    expires := none, idField := none, databaseName := none,
    expiresKey := none, expiresAfterSeconds := none }

/-- Resolved options after applying the archetype defaults.  Required fields
are total; `connectionOptions` and `databaseName` both default to `null`
(`$default: null` in the schema), kept as `Option`. -/
structure StoreOptions where
  uri : String
  collection : String
  connectionOptions : Option (List (String × String))
  expires : Nat
  idField : String
  databaseName : Option String
  expiresKey : String
  expiresAfterSeconds : Nat
deriving DecidableEq

/-- Default session TTL: two weeks in milliseconds
(`1000 * 60 * 60 * 24 * 14`). -/
def defaultExpires : Nat := 1000 * 60 * 60 * 24 * 14

/-- Resolution of `new OptionsType(options)`: each unspecified field takes the
`$default` of the schema.  `connectionOptions` and `databaseName` have
`$default: null`, so an unspecified value stays absent rather than becoming an
empty object. -/
def resolveOptions (r : RawOptions) : StoreOptions :=
  { uri := r.uri.getD "mongodb://127.0.0.1:27017/test"
    collection := r.collection.getD "sessions"
    connectionOptions := r.connectionOptions
    expires := r.expires.getD defaultExpires
    idField := r.idField.getD "_id"
    databaseName := r.databaseName
    expiresKey := r.expiresKey.getD "expires"
    expiresAfterSeconds := r.expiresAfterSeconds.getD 0 }

/-- Embedding of `MongoDBStore.prototype._generateQuery`: the query object
`{ [this.options.idField]: id }`, a single-key document. -/
def generateQuery (o : StoreOptions) (id : String) : List (String × String) :=
  [(o.idField, id)]

/-! ## Session payloads and stored documents -/

/-- The `cookie` field of a session payload as the store inspects it:
`expires` (present and truthy when `some`), an optional `toJSON` capability
whose application yields the serialized form, and the remaining raw cookie
content. -/
structure Cookie where
  expires : Option Nat
  toJSON : Option String
  data : List (String × String)
deriving DecidableEq

/-- A session payload passed to `set`: the store only distinguishes the
`cookie` key (transformed and consulted for expiry) from every other key,
which is copied verbatim. -/
structure SessionPayload where
  cookie : Option Cookie
  rest : List (String × String)
deriving DecidableEq

/-- A cookie value as persisted: either the result of calling `toJSON()` or
the raw cookie object when no `toJSON` capability exists. -/
inductive StoredCookie where
  | serialized (j : String)
  | raw (c : Cookie)
deriving DecidableEq

/-- The `session` field of a persisted document. -/
structure StoredSession where
  cookie : Option StoredCookie
  rest : List (String × String)
deriving DecidableEq

/-- The shallow copy loop of `set`: every key is copied as-is except
`cookie`, which is replaced by `session.cookie.toJSON()` when that capability
exists (`sess[key] = session[key].toJSON ? session[key].toJSON() : session[key]`). -/
def copySession (p : SessionPayload) : StoredSession :=
  { cookie := p.cookie.map fun c =>
      match c.toJSON with
      | some j => StoredCookie.serialized j
      | none => StoredCookie.raw c
    rest := p.rest }

/-- Expiry computation in `set`: `session.cookie.expires` when present and
truthy, otherwise `now + this.options.expires`. -/
def computeExpiry (now ttl : Nat) (p : SessionPayload) : Nat :=
  match p.cookie with
  | some c =>
    match c.expires with
    | some t => t
    | none => now + ttl
  | none => now + ttl

/-- A persisted session document `{ [idField]: id, session: ..., [expiresKey]: ... }`.
The `expires` field is optional because `get` guards on `!session.expires`. -/
structure SessionDoc where
  idVal : String
  session : StoredSession
  expires : Option Nat
deriving DecidableEq

/-- A collection is its documents in order; MongoDB's single-document
operations act on the first match. -/
abbrev Collection := List SessionDoc

/-- Embedding of `collection.findOne(this._generateQuery(id))`: the first
document whose identifier field equals `id`. -/
def findOne : Collection → String → Option SessionDoc
  | [], _ => none
  | d :: rest, id => if d.idVal = id then some d else findOne rest id

/-- Embedding of `collection.deleteOne(this._generateQuery(id))`: remove the
first document whose identifier field equals `id`, if any. -/
def deleteOne : Collection → String → Collection
  | [], _ => []
  | d :: rest, id => if d.idVal = id then rest else d :: deleteOne rest id

/-- Embedding of `collection.updateOne(query, { $set: s }, { upsert: true })`:
replace the first document matching the identifier with `doc`, or insert `doc`
when no document matches. -/
def upsertOne (doc : SessionDoc) : Collection → Collection
  | [] => [doc]
  | d :: rest => if d.idVal = doc.idVal then doc :: rest else d :: upsertOne doc rest

/-- The document `set` builds: `s = this._generateQuery(id); s.session = sess;
s[this.options.expiresKey] = <computed expiry>`. -/
def sessionToDoc (now ttl : Nat) (id : String) (p : SessionPayload) : SessionDoc :=
  { idVal := id, session := copySession p, expires := some (computeExpiry now ttl p) }

/-- Outcome delivered to an operation's callback, together with the number of
`deleteOne` calls the operation issued. -/
structure OpResult where
  error : Option String
  value : Option StoredSession
  deleteCalls : Nat
deriving DecidableEq

/-- Embedding of `MongoDBStore.prototype.destroy` on a ready store: issue one
`deleteOne` for the identifier and call back with no error; a missing match is
not an error. -/
def destroyOp (coll : Collection) (id : String) : Collection × OpResult :=
  (deleteOne coll id, { error := none, value := none, deleteCalls := 1 })

/-- Embedding of `MongoDBStore.prototype.get` on a ready store: `findOne` on
the identifier; absent document calls back empty; a document with no recorded
expiry or a future expiry calls back with its `session` field; an expired
document is handed to `destroy`, whose result is returned. -/
def getOp (now : Nat) (coll : Collection) (id : String) : Collection × OpResult :=
  match findOne coll id with
  | none => (coll, { error := none, value := none, deleteCalls := 0 })
  | some d =>
    match d.expires with
    | none => (coll, { error := none, value := some d.session, deleteCalls := 0 })
    | some e =>
      if now < e then (coll, { error := none, value := some d.session, deleteCalls := 0 })
      else destroyOp coll id

/-- Embedding of `MongoDBStore.prototype.set` on a ready store: build the
copied session and its expiry, upsert keyed by the identifier field, call back
with no error. -/
def setOp (now ttl : Nat) (coll : Collection) (id : String) (p : SessionPayload) :
    Collection × OpResult :=
  (upsertOne (sessionToDoc now ttl id p) coll,
   { error := none, value := none, deleteCalls := 0 })

/-- Embedding of `MongoDBStore.prototype.clear` on a ready store:
`deleteMany({})` removes every document, then call back with no error. -/
def clearOp (_coll : Collection) : Collection × OpResult :=
  ([], { error := none, value := none, deleteCalls := 0 })

/-! ## Error delivery (`handleError` in index.js) -/

/-- Channels through which `handleError(error, callback)` reports a failure:
the errors emitted on the `error` event, the error invocations of the
callback, and the synchronously thrown error, if any. -/
structure ErrorDelivery where
  emitted : List String
  callbackCalls : List (Option String)
  thrown : Option String
deriving DecidableEq

/-- Embedding of `handleError`: emit on the `error` event when a listener is
registered; invoke the callback with the error when one was supplied; throw
the error when neither channel exists. -/
def handleErrorRun (hasListener hasCallback : Bool) (e : String) : ErrorDelivery :=
  { emitted := if hasListener then [e] else []
    callbackCalls := if hasCallback then [some e] else []
    thrown := if !hasListener && !hasCallback then some e else none }

/-! ## Connection lifecycle (the `initialConnectionPromise` chain) -/

/-- Result of one asynchronous step (the client's `connect()` or the
collection's `createIndex`). -/
inductive StepResult where
  | ok
  | failed (msg : String)
deriving DecidableEq

/-- Observable outcome of constructing the store: whether the constructor
itself threw before returning (`syncThrow`), the error escaping the promise
chain afterwards (`asyncThrow`, an unhandled rejection), every callback
invocation in order (`none` is a success invocation, `some m` an error one),
whether `connected` was emitted, and the errors emitted on the `error`
event. -/
structure LifecycleOutcome where
  syncThrow : Option String
  asyncThrow : Option String
  callbackCalls : List (Option String)
  connectedEmitted : Bool
  errorsEmitted : List String
deriving DecidableEq

/-- Embedding of the constructor's connection chain:
`client.connect().then(createIndex-with-catch).then(success-signal).catch(outer)`.
The constructor body itself only registers this chain, so the synchronous
phase never throws; every branch below runs after construction returned.
A connect failure lands in the outer catch: the error is wrapped as
`Error connecting to db: ...`, handed to `handleError`, and re-thrown when no
callback was supplied.  An index failure is wrapped as
`Error creating index: ...` and handed to `handleError` inside the inner
catch; when `handleError` returns normally the inner catch resolves and the
success continuation still runs (callback success invocation and `connected`
emission), and when `handleError` throws the rejection reaches the outer
catch and is wrapped a second time. -/
def initialConnection (connectRes indexRes : StepResult)
    (hasCallback hasErrorListener : Bool) : LifecycleOutcome :=
  match connectRes with
  | .failed msg =>
    let e := "Error connecting to db: " ++ msg
    let d := handleErrorRun hasErrorListener hasCallback e
    match d.thrown with
    | some t =>
      { syncThrow := none, asyncThrow := some t, callbackCalls := d.callbackCalls,
        connectedEmitted := false, errorsEmitted := d.emitted }
    | none =>
      if hasCallback then
        { syncThrow := none, asyncThrow := none, callbackCalls := d.callbackCalls,
          connectedEmitted := false, errorsEmitted := d.emitted }
      else
        { syncThrow := none, asyncThrow := some e, callbackCalls := d.callbackCalls,
          connectedEmitted := false, errorsEmitted := d.emitted }
  | .ok =>
    match indexRes with
    | .failed msg =>
      let e := "Error creating index: " ++ msg
      let d := handleErrorRun hasErrorListener hasCallback e
      match d.thrown with
      | some t =>
        let e2 := "Error connecting to db: " ++ t
        let d2 := handleErrorRun hasErrorListener hasCallback e2
        match d2.thrown with
        | some t2 =>
          { syncThrow := none, asyncThrow := some t2,
            callbackCalls := d.callbackCalls ++ d2.callbackCalls,
            connectedEmitted := false, errorsEmitted := d.emitted ++ d2.emitted }
        | none =>
          if hasCallback then
            { syncThrow := none, asyncThrow := none,
              callbackCalls := d.callbackCalls ++ d2.callbackCalls,
              connectedEmitted := false, errorsEmitted := d.emitted ++ d2.emitted }
          else
            { syncThrow := none, asyncThrow := some e2,
              callbackCalls := d.callbackCalls ++ d2.callbackCalls,
              connectedEmitted := false, errorsEmitted := d.emitted ++ d2.emitted }
      | none =>
        { syncThrow := none, asyncThrow := none,
          callbackCalls := d.callbackCalls ++ (if hasCallback then [none] else []),
          connectedEmitted := true, errorsEmitted := d.emitted }
    | .ok =>
      { syncThrow := none, asyncThrow := none,
        callbackCalls := if hasCallback then [none] else [],
        connectedEmitted := true, errorsEmitted := [] }

/-! ## Pre-ready operation buffering (the event-emitter variant) -/

/-- A store operation with its captured arguments, as closed over by the
`once('connected')` listener the buffering variant registers when `this.db`
is not yet set. -/
inductive StoreOp where
  | get (id : String)
  | set (id : String) (session : SessionPayload)
  | destroy (id : String)
  | clear
deriving DecidableEq

/-- Buffering state of the store: whether `this.db` is set (the store is
ready), the `once('connected')` listeners in registration order, and the
operations dispatched to the database in dispatch order. -/
structure BufferState where
  dbReady : Bool
  pendingConnected : List StoreOp
  dispatched : List StoreOp
deriving DecidableEq

/-- Invocation of `get`/`set`/`destroy`/`clear` in the buffering variant: if
`this.db` is not set, register a `once('connected')` listener capturing the
exact arguments (appended to the emitter's listener list); otherwise dispatch
the operation to the database. -/
def invokeOp (st : BufferState) (op : StoreOp) : BufferState :=
  if st.dbReady then { st with dispatched := st.dispatched ++ [op] }
  else { st with pendingConnected := st.pendingConnected ++ [op] }

/-- Invocation of a sequence of operations, in order. -/
def invokeOps (st : BufferState) : List StoreOp → BufferState
  | [] => st
  | op :: rest => invokeOps (invokeOp st op) rest

/-- The `READY` transition of the buffering variant: the constructor sets
`this.db` and then emits `connected`; the emitter removes each `once`
listener and invokes it in registration order, and each listener re-invokes
its operation, which now dispatches. -/
def emitConnected (st : BufferState) : BufferState :=
  invokeOps { dbReady := true, pendingConnected := [], dispatched := st.dispatched }
    st.pendingConnected

/-- The state of a freshly constructed, not yet connected store. -/
def initialBufferState : BufferState :=
  { dbReady := false, pendingConnected := [], dispatched := [] }

/-! ## Constructor entry (the `new`-guard and argument juggling) -/

/-- First constructor argument: an options object, a callback passed in the
options position, or omitted entirely. -/
inductive OptionsArg where
  | value (r : RawOptions)
  | func (cb : Nat)
  | omitted
deriving DecidableEq

/-- Observable result of the constructor's synchronous argument handling:
the resolved options and the callback (identified by a tag) that the
connection chain will use. -/
structure StoreInit where
  options : StoreOptions
  callback : Option Nat
deriving DecidableEq

/-- The constructor body past the `new`-guard: when the options argument is a
function it becomes the callback and the options default to `{}`; an omitted
argument also defaults to `{}`; then the archetype defaults are applied. -/
def constructBody (optionsArg : OptionsArg) (callback : Option Nat) : StoreInit :=
  match optionsArg with
  | .func cb => { options := resolveOptions emptyRawOptions, callback := some cb }
  | .value r => { options := resolveOptions r, callback := callback }
  | .omitted => { options := resolveOptions emptyRawOptions, callback := callback }

/-- Invocation of `MongoDBStore` with `new`: `this` is an instance, so the
guard falls through to the body. -/
def mongoDBStoreNew (optionsArg : OptionsArg) (callback : Option Nat) : StoreInit :=
  constructBody optionsArg callback

/-- Invocation of `MongoDBStore` with or without `new`:
`if (!(this instanceof MongoDBStore)) return new MongoDBStore(options, callback)`
re-enters the constructor with an instance receiver. -/
def mongoDBStoreInvoke (isInstance : Bool) (optionsArg : OptionsArg)
    (callback : Option Nat) : StoreInit :=
  if isInstance then constructBody optionsArg callback
  else mongoDBStoreNew optionsArg callback

/-! ## Helper lemmas -/

theorem invokeOps_not_ready (ops q d : List StoreOp) :
    invokeOps { dbReady := false, pendingConnected := q, dispatched := d } ops =
      { dbReady := false, pendingConnected := q ++ ops, dispatched := d } := by
  induction ops generalizing q with
  | nil => simp [invokeOps]
  | cons op rest ih => simp [invokeOps, invokeOp, ih]

theorem invokeOps_ready (ops q d : List StoreOp) :
    invokeOps { dbReady := true, pendingConnected := q, dispatched := d } ops =
      { dbReady := true, pendingConnected := q, dispatched := d ++ ops } := by
  induction ops generalizing d with
  | nil => simp [invokeOps]
  | cons op rest ih => simp [invokeOps, invokeOp, ih]

theorem length_deleteOne_of_findOne {coll : Collection} {id : String} {d : SessionDoc}
    (h : findOne coll id = some d) : (deleteOne coll id).length + 1 = coll.length := by
  induction coll with
  | nil => simp [findOne] at h
  | cons hd tl ih =>
    by_cases hid : hd.idVal = id
    · simp [deleteOne, hid]
    · simp only [findOne, hid, if_false] at h
      simp [deleteOne, hid, ih h]

theorem findOne_upsertOne_self (doc : SessionDoc) (coll : Collection) :
    findOne (upsertOne doc coll) doc.idVal = some doc := by
  induction coll with
  | nil => simp [upsertOne, findOne]
  | cons hd tl ih =>
    by_cases h : hd.idVal = doc.idVal
    · simp [upsertOne, h, findOne]
    · simp [upsertOne, h, findOne, ih]

theorem findOne_deleteOne_other {id1 id2 : String} (hne : id1 ≠ id2) (coll : Collection) :
    findOne (deleteOne coll id1) id2 = findOne coll id2 := by
  induction coll with
  | nil => rfl
  | cons hd tl ih =>
    by_cases h1 : hd.idVal = id1
    · have h2 : hd.idVal ≠ id2 := fun hh => hne (h1.symm.trans hh)
      simp only [deleteOne, findOne, if_pos h1, if_neg h2]
    · by_cases h2 : hd.idVal = id2
      · simp only [deleteOne, findOne, if_neg h1, if_pos h2]
      · simp only [deleteOne, findOne, if_neg h1, if_neg h2, ih]

theorem findOne_upsertOne_other {doc : SessionDoc} {id2 : String}
    (hne : doc.idVal ≠ id2) (coll : Collection) :
    findOne (upsertOne doc coll) id2 = findOne coll id2 := by
  induction coll with
  | nil => simp only [upsertOne, findOne, if_neg hne]
  | cons hd tl ih =>
    by_cases h : hd.idVal = doc.idVal
    · have h2 : hd.idVal ≠ id2 := fun hh => hne (h.symm.trans hh)
      simp only [upsertOne, findOne, if_pos h, if_neg h2, if_neg hne]
    · by_cases h2 : hd.idVal = id2
      · simp only [upsertOne, findOne, if_neg h, if_pos h2]
      · simp only [upsertOne, findOne, if_neg h, if_neg h2, ih]

/-! ## Claim theorems -/

/-- C1: on a store that has not yet reached READY (the buffering variant's
`this.db` unset), every `get`/`set`/`destroy`/`clear` call is queued with its
exact arguments and none is dispatched; when the store becomes READY (db set,
`connected` emitted) every queued operation is dispatched in original call
order, none lost, and the queue is drained. -/
theorem buffered_operations_fifo_replay (ops : List StoreOp) :
    (invokeOps initialBufferState ops).dispatched = [] ∧
    (invokeOps initialBufferState ops).pendingConnected = ops ∧
    (emitConnected (invokeOps initialBufferState ops)).dispatched = ops ∧
    (emitConnected (invokeOps initialBufferState ops)).pendingConnected = [] := by
  have h : invokeOps initialBufferState ops =
      { dbReady := false, pendingConnected := ops, dispatched := [] } := by
    simpa using invokeOps_not_ready ops [] []
  refine ⟨by simp [h], by simp [h], ?_, ?_⟩ <;>
    simp [h, emitConnected, invokeOps_ready]

/-- C2: `handleError` fans a failure out to every available channel: a
registered error listener receives it, a supplied callback receives it, both
receive it independently when both are present, and with neither present the
error is thrown synchronously rather than swallowed. -/
theorem error_delivery_fanout (e : String) :
    handleErrorRun true true e =
      { emitted := [e], callbackCalls := [some e], thrown := none } ∧
    handleErrorRun true false e =
      { emitted := [e], callbackCalls := [], thrown := none } ∧
    handleErrorRun false true e =
      { emitted := [], callbackCalls := [some e], thrown := none } ∧
    handleErrorRun false false e =
      { emitted := [], callbackCalls := [], thrown := some e } :=
  ⟨rfl, rfl, rfl, rfl⟩

/-- C3 counterexample: with the client's connect rejecting (`Cant connect`)
and no callback supplied, the constructor's synchronous phase completes
without raising; the error surfaces only afterwards, as an asynchronous
raise out of the promise chain. -/
theorem connect_failure_sync_raise_counterexample :
    (initialConnection (.failed "Cant connect") .ok false false).syncThrow = none ∧
    (initialConnection (.failed "Cant connect") .ok false false).asyncThrow =
      some "Error connecting to db: Cant connect" :=
  ⟨rfl, rfl⟩

/-- C3 amended: when the connect step fails and no callback was supplied,
construction does not raise before control returns to the caller; instead the
error is raised asynchronously from the connection promise chain, with a
message that contains the underlying cause text (it is the literal wrapper
prefix followed by the cause). -/
theorem connect_failure_async_raise (msg : String) (indexRes : StepResult) (l : Bool) :
    (initialConnection (.failed msg) indexRes false l).syncThrow = none ∧
    (initialConnection (.failed msg) indexRes false l).asyncThrow =
      some ("Error connecting to db: " ++ msg) := by
  cases l <;> exact ⟨rfl, rfl⟩

/-- C4: when connect succeeds but TTL index creation fails with a callback
supplied and no error listener, the code first reports the error through the
error-delivery contract, but then the success continuation still runs: the
callback is invoked a second time as a success signal and `connected` is
emitted — contradicting the claim that the store must not signal READY. -/
theorem index_failure_still_signals_connected :
    initialConnection .ok (.failed "Index fail") true false =
      { syncThrow := none, asyncThrow := none,
        callbackCalls := [some "Error creating index: Index fail", none],
        connectedEmitted := true, errorsEmitted := [] } :=
  rfl

/-- C5: a `get` on an id whose stored expiry is in the past returns the
result of `destroy(id)` — an empty result with no error — and issues exactly
one `deleteOne`, removing exactly one document from the collection. -/
theorem expired_get_destroys (now : Nat) (coll : Collection) (id : String)
    (d : SessionDoc) (e : Nat) (hfind : findOne coll id = some d)
    (hexp : d.expires = some e) (hpast : e < now) :
    getOp now coll id = destroyOp coll id ∧
    (getOp now coll id).2.error = none ∧
    (getOp now coll id).2.value = none ∧
    (getOp now coll id).2.deleteCalls = 1 ∧
    (getOp now coll id).1.length + 1 = coll.length := by
  have hnot : ¬ now < e := by omega
  have hmain : getOp now coll id = destroyOp coll id := by
    simp [getOp, hfind, hexp, hnot]
  refine ⟨hmain, ?_, ?_, ?_, ?_⟩ <;>
    simp [hmain, destroyOp, length_deleteOne_of_findOne hfind]

/-- C5 witness: a concrete collection holding one document for id `abc` that
expired at time 5, read at time 10. -/
theorem expired_get_destroys_witness :
    getOp 10 [{ idVal := "abc", session := { cookie := none, rest := [] },
                expires := some 5 }] "abc" =
      destroyOp [{ idVal := "abc", session := { cookie := none, rest := [] },
                   expires := some 5 }] "abc" ∧
    (getOp 10 [{ idVal := "abc", session := { cookie := none, rest := [] },
                 expires := some 5 }] "abc").2.deleteCalls = 1 :=
  have h := expired_get_destroys 10
    [{ idVal := "abc", session := { cookie := none, rest := [] }, expires := some 5 }]
    "abc"
    { idVal := "abc", session := { cookie := none, rest := [] }, expires := some 5 }
    5 (by decide) (by decide) (by decide)
  ⟨h.1, h.2.2.2.1⟩

/-- C6: on a ready store, `set(id, payload)` followed immediately by
`get(id)`, with the stored expiry not yet passed, returns exactly the copied
payload with no error; the copy preserves every non-cookie key and keeps the
cookie as-is, except that a cookie with a `toJSON` capability is replaced by
its serialized form. -/
theorem set_then_get_roundtrip (now ttl getTime : Nat) (coll : Collection)
    (id : String) (p : SessionPayload)
    (hfresh : getTime < computeExpiry now ttl p) :
    (getOp getTime (setOp now ttl coll id p).1 id).2.value = some (copySession p) ∧
    (getOp getTime (setOp now ttl coll id p).1 id).2.error = none ∧
    (copySession p).rest = p.rest ∧
    (∀ c j, p.cookie = some c → c.toJSON = some j →
      (copySession p).cookie = some (StoredCookie.serialized j)) ∧
    (∀ c, p.cookie = some c → c.toJSON = none →
      (copySession p).cookie = some (StoredCookie.raw c)) := by
  have hfind : findOne (setOp now ttl coll id p).1 id = some (sessionToDoc now ttl id p) := by
    have h := findOne_upsertOne_self (sessionToDoc now ttl id p) coll
    simpa [setOp, sessionToDoc] using h
  refine ⟨?_, ?_, rfl, ?_, ?_⟩
  · simp [getOp, hfind, sessionToDoc, hfresh]
  · simp [getOp, hfind, sessionToDoc, hfresh]
  · intro c j hc hj
    simp [copySession, hc, hj]
  · intro c hc hj
    simp [copySession, hc, hj]

/-- C6 witness: a concrete payload with one data key and a cookie exposing
`toJSON`, set at time 0 with TTL 100 and read back at time 1. -/
theorem set_then_get_roundtrip_witness :
    (getOp 1 (setOp 0 100 []
        "sid" { cookie := some { expires := none, toJSON := some "J", data := [] },
                rest := [("user", "bob")] }).1 "sid").2.value =
      some (copySession { cookie := some { expires := none, toJSON := some "J", data := [] },
                          rest := [("user", "bob")] }) ∧
    (copySession { cookie := some { expires := none, toJSON := some "J", data := [] },
                   rest := [("user", "bob")] }).cookie =
      some (StoredCookie.serialized "J") :=
  have h := set_then_get_roundtrip 0 100 1 []
    "sid" { cookie := some { expires := none, toJSON := some "J", data := [] },
            rest := [("user", "bob")] } (by decide)
  ⟨h.1, h.2.2.2.1 _ _ rfl rfl⟩

/-- C7: the document stored by `set` carries the computed expiry: exactly the
cookie's explicit expiry `t` when one is present, and otherwise a value
within `[now, now + TTL]` evaluated at call time (it is exactly
`now + TTL`). -/
theorem set_expiry_computation (now ttl : Nat) (coll : Collection) (id : String)
    (p : SessionPayload) :
    findOne (setOp now ttl coll id p).1 id = some (sessionToDoc now ttl id p) ∧
    (sessionToDoc now ttl id p).expires = some (computeExpiry now ttl p) ∧
    (∀ t, p.cookie.bind Cookie.expires = some t → computeExpiry now ttl p = t) ∧
    (p.cookie.bind Cookie.expires = none →
      now ≤ computeExpiry now ttl p ∧ computeExpiry now ttl p ≤ now + ttl) := by
  refine ⟨?_, rfl, ?_, ?_⟩
  · have h := findOne_upsertOne_self (sessionToDoc now ttl id p) coll
    simpa [setOp, sessionToDoc] using h
  · intro t ht
    cases hc : p.cookie with
    | none => rw [hc] at ht; exact Option.noConfusion ht
    | some c =>
      rw [hc] at ht
      have ht' : c.expires = some t := ht
      simp [computeExpiry, hc, ht']
  · intro hnone
    cases hc : p.cookie with
    | none =>
      simp only [computeExpiry, hc]
      omega
    | some c =>
      rw [hc] at hnone
      have h' : c.expires = none := hnone
      simp only [computeExpiry, hc, h']
      omega

/-- C7 witness: with an explicit cookie expiry 777 the stored expiry is 777;
with no cookie the stored expiry is within `[now, now + ttl]` at
`now = 50, ttl = 100`. -/
theorem set_expiry_computation_witness :
    computeExpiry 50 100
      { cookie := some { expires := some 777, toJSON := none, data := [] }, rest := [] } = 777 ∧
    (50 ≤ computeExpiry 50 100 { cookie := none, rest := [] } ∧
      computeExpiry 50 100 { cookie := none, rest := [] } ≤ 50 + 100) :=
  have h1 := set_expiry_computation 50 100 [] "sid"
    { cookie := some { expires := some 777, toJSON := none, data := [] }, rest := [] }
  have h2 := set_expiry_computation 50 100 [] "sid" { cookie := none, rest := [] }
  ⟨h1.2.2.1 777 rfl, h2.2.2.2 rfl⟩

/-- C8 counterexample: with no options supplied, the resolved
`connectionOptions` is `null` (`$default: null` in the schema), not an empty
options bag as the claim states. -/
theorem connection_options_default_counterexample :
    (resolveOptions emptyRawOptions).connectionOptions = none ∧
    (resolveOptions emptyRawOptions).connectionOptions ≠ some [] :=
  ⟨rfl, by simp [resolveOptions, emptyRawOptions]⟩

/-- C8 amended: every option left unspecified resolves to its documented
default — uri to the local test database, collection to `sessions`, expires
to 14 days in milliseconds, idField to `_id`, expiresKey to `expires`,
expiresAfterSeconds to 0 — while `connectionOptions` defaults to `null`
(absent), not an empty object; required fields are therefore always
populated. -/
theorem options_defaults_resolved (r : RawOptions) :
    (r.uri = none → (resolveOptions r).uri = "mongodb://127.0.0.1:27017/test") ∧
    (r.collection = none → (resolveOptions r).collection = "sessions") ∧
    (r.expires = none → (resolveOptions r).expires = 1209600000) ∧
    (r.idField = none → (resolveOptions r).idField = "_id") ∧
    (r.expiresKey = none → (resolveOptions r).expiresKey = "expires") ∧
    (r.expiresAfterSeconds = none → (resolveOptions r).expiresAfterSeconds = 0) ∧
    (resolveOptions r).connectionOptions = r.connectionOptions := by
  refine ⟨?_, ?_, ?_, ?_, ?_, ?_, rfl⟩ <;>
    · intro h
      simp [resolveOptions, h, defaultExpires]

/-- C8 witness: the fully default configuration (`new MongoDBStore()`). -/
theorem options_defaults_resolved_witness :
    (resolveOptions emptyRawOptions).uri = "mongodb://127.0.0.1:27017/test" ∧
    (resolveOptions emptyRawOptions).collection = "sessions" ∧
    (resolveOptions emptyRawOptions).expires = 1209600000 ∧
    (resolveOptions emptyRawOptions).idField = "_id" ∧
    (resolveOptions emptyRawOptions).expiresKey = "expires" ∧
    (resolveOptions emptyRawOptions).expiresAfterSeconds = 0 ∧
    (resolveOptions emptyRawOptions).connectionOptions = none :=
  have h := options_defaults_resolved emptyRawOptions
  ⟨h.1 rfl, h.2.1 rfl, h.2.2.1 rfl, h.2.2.2.1 rfl, h.2.2.2.2.1 rfl,
    h.2.2.2.2.2.1 rfl, h.2.2.2.2.2.2⟩

/-- C9: `set(id1, payload)` and `destroy(id1)` build their query as the
single-key object `{ idField: id1 }`, so for any other identifier `id2` the
document `get` would find for `id2` is unchanged by either operation. -/
theorem set_destroy_frame (now ttl : Nat) (coll : Collection) (id1 id2 : String)
    (p : SessionPayload) (hne : id1 ≠ id2) :
    findOne (setOp now ttl coll id1 p).1 id2 = findOne coll id2 ∧
    findOne (destroyOp coll id1).1 id2 = findOne coll id2 ∧
    (∀ o : StoreOptions, generateQuery o id1 = [(o.idField, id1)]) := by
  refine ⟨?_, ?_, fun _ => rfl⟩
  · have h := @findOne_upsertOne_other (sessionToDoc now ttl id1 p) id2 hne coll
    simpa [setOp] using h
  · simpa [destroyOp] using findOne_deleteOne_other hne coll

/-- C9 witness: a two-document collection; setting and destroying `a` leaves
the document found for `b` unchanged. -/
theorem set_destroy_frame_witness :
    findOne (setOp 0 100 [{ idVal := "b", session := { cookie := none, rest := [] },
                            expires := none }]
        "a" { cookie := none, rest := [] }).1 "b" =
      findOne [{ idVal := "b", session := { cookie := none, rest := [] },
                 expires := none }] "b" ∧
    findOne (destroyOp [{ idVal := "b", session := { cookie := none, rest := [] },
                          expires := none }] "a").1 "b" =
      findOne [{ idVal := "b", session := { cookie := none, rest := [] },
                 expires := none }] "b" :=
  have h := set_destroy_frame 0 100
    [{ idVal := "b", session := { cookie := none, rest := [] }, expires := none }]
    "a" "b" { cookie := none, rest := [] } (by decide)
  ⟨h.1, h.2.1⟩

/-- C10: invoking the `MongoDBStore` constructor without `new` re-enters it
through the instance guard, producing the same construction result as
`new MongoDBStore(options, callback)` for every argument shape. -/
theorem constructor_without_new (optionsArg : OptionsArg) (cb : Option Nat) :
    mongoDBStoreInvoke false optionsArg cb = mongoDBStoreInvoke true optionsArg cb :=
  rfl

end ConnectMongoDBSession
